import Mathlib

/-!
Verification of the sentiment-analysis core of the AI-Powered-Chatbot
repository (`app/sentiment.py` and the analytics routes of
`templates/routes.py`), as a shallow embedding in Lean 4.

Conventions of the embedding:
* Python strings are Lean `String`; `message.lower()` is modelled as
  `message.data.map Char.toLower` (the per-character ASCII lowering that is
  what matters for the ASCII keyword lists of the source).
* Python `needle in haystack` (substring test) is modelled by the
  executable `containsSub` on character lists, proved equivalent to
  Mathlib's `List.IsInfix`.
* Python numbers are modelled as `ℚ` (scores, percentages) and `ℤ`
  (timestamps, in seconds since the epoch; a UTC calendar date is the
  floor of the timestamp divided by 86400, which is exactly how Python's
  `datetime`/`strftime` day arithmetic behaves on UTC instants).
* Python `round(x, n)` (round-half-to-even at `n` decimal digits) is
  modelled by `pyRound`.
* `random.choice(lst)` is modelled by an explicit natural-number
  parameter `r`, selecting `lst[r % len(lst)]`; theorems quantify over
  all `r`.
* A Python `dict` keyed by day strings is modelled as a total function
  `ℤ → DayCounts` defaulting to zero counts: the source initialises a
  missing key to the zero record before bumping it and reads back with
  `.get(date, zero)`, so the default-zero total function has exactly the
  same observable lookups.
* A raised `KeyError` is modelled as `none` of an `Option`.
-/

/-- Python's `needle in haystack` substring test on character lists. -/
def containsSub (needle : List Char) : List Char → Bool
  | [] => needle.isEmpty
  | c :: t => needle.isPrefixOf (c :: t) || containsSub needle t

/-- Lowercased form of a Python string (`message.lower()`), as a char list. -/
def lowerChars (s : String) : List Char := s.data.map Char.toLower

/-- The generator test `any(word in message_lower for word in ws)` from the source. -/
def anyKeyword (ws : List String) (ml : List Char) : Bool :=
  ws.any (fun w => containsSub w.data ml)

/-- Python's `round` to an integer: round half to even (banker's rounding). -/
def pyRoundInt (q : ℚ) : ℤ :=
  if q - ⌊q⌋ = 1/2 then (if ⌊q⌋ % 2 = 0 then ⌊q⌋ else ⌊q⌋ + 1) else round q

/-- Python's `round(x, n)`: round half to even at `n` decimal digits. -/
def pyRound (x : ℚ) (n : ℕ) : ℚ := (pyRoundInt (x * 10 ^ n) : ℚ) / 10 ^ n

/-- The threshold classification of `analyze_sentiment`
(`app/sentiment.py` lines 27–33). -/
def classify (polarity : ℚ) : String :=
  if polarity > 0.1 then "positive"
  else if polarity < -0.1 then "negative"
  else "neutral"

/-- The `positive` response templates of `generate_response`. -/
def positiveResponses : List String :=
  ["That\x27s wonderful! I\x27m glad you\x27re feeling positive! 😊",
   "I love your enthusiasm! How can I help you further?",
   "Great to hear such positivity! What else can I do for you?",
   "Your positive energy is contagious! What\x27s on your mind?",
   "That\x27s fantastic! I\x27m here to keep that good mood going!"]

/-- The `negative` response templates of `generate_response`. -/
def negativeResponses : List String :=
  ["I\x27m sorry to hear that. I\x27m here to help you feel better. 💙",
   "I understand this might be difficult. Let\x27s work through it together.",
   "I hear you. Sometimes things can be tough. How can I assist you?",
   "I\x27m here for you. Would you like to talk more about it?",
   "I appreciate you sharing that with me. Let\x27s find a way to help."]

/-- The `neutral` response templates of `generate_response`. -/
def neutralResponses : List String :=
  ["I understand. How can I assist you today?",
   "Got it! What would you like to know?",
   "I\x27m listening. Please tell me more.",
   "Alright! What can I help you with?",
   "I see. What\x27s your next question?"]

/-- The lookup `responses.get(sentiment, responses['neutral'])` from the source: the
template list for a label, defaulting to the neutral list. -/
def responsesFor (sentiment : String) : List String :=
  if sentiment = "positive" then positiveResponses
  else if sentiment = "negative" then negativeResponses
  else if sentiment = "neutral" then neutralResponses
  else neutralResponses

/-- The function `SentimentAnalyzer.generate_response` (`app/sentiment.py` lines 38–93).
`random.choice` is modelled by the index parameter `r`, reduced modulo the
length of the template list. -/
def generate_response (message : String) (sentiment : String) (r : ℕ) : String :=
  let response_list := responsesFor sentiment
  let base_response := response_list.getD (r % response_list.length) ""
  let message_lower := lowerChars message
  if anyKeyword ["help", "support", "assist"] message_lower then
    base_response ++ " I\x27m here to assist you with any questions or concerns you may have."
  else if anyKeyword ["thank", "thanks", "appreciate"] message_lower then
    "You\x27re very welcome! It\x27s my pleasure to help you. 😊"
  else if anyKeyword ["bye", "goodbye", "see you"] message_lower then
    "Goodbye! Feel free to return anytime. Have a great day! 👋"
  else if anyKeyword ["hello", "hi", "hey"] message_lower then
    "Hello! Nice to meet you! How can I brighten your day? 😊"
  else base_response

/-- All twelve keyword triggers of `generate_response`, in rule order. -/
def keywordTriggers : List String :=
  ["help", "support", "assist", "thank", "thanks", "appreciate",
   "bye", "goodbye", "see you", "hello", "hi", "hey"]

/-- A persisted chat record as consumed by the aggregation operations
(`ChatMessage` of `app/models.py`, restricted to the fields the
aggregations read: the sentiment label and the timestamp, the latter as
UTC seconds since the epoch). -/
structure ChatRecord where
  sentiment : String
  timestamp : ℤ
deriving DecidableEq

/-- The dictionary returned by `SentimentStats.calculate_statistics`. -/
structure SentimentStatistics where
  total : ℕ
  positive : ℕ
  negative : ℕ
  neutral : ℕ
  positive_percent : ℚ
  negative_percent : ℚ
  neutral_percent : ℚ
deriving DecidableEq

/-- The function `SentimentStats.calculate_statistics` (`app/sentiment.py` lines 102–136).
`sum(1 for msg in messages if msg.sentiment == lbl)` is `List.countP`. -/
def calculate_statistics (messages : List ChatRecord) : SentimentStatistics :=
  if messages.isEmpty then
    { total := 0, positive := 0, negative := 0, neutral := 0,
      positive_percent := 0, negative_percent := 0, neutral_percent := 0 }
  else
    let total := messages.length
    let positive := messages.countP (fun msg => msg.sentiment == "positive")
    let negative := messages.countP (fun msg => msg.sentiment == "negative")
    let neutral := messages.countP (fun msg => msg.sentiment == "neutral")
    { total := total, positive := positive, negative := negative, neutral := neutral,
      positive_percent := pyRound ((positive : ℚ) / (total : ℚ) * 100) 1,
      negative_percent := pyRound ((negative : ℚ) / (total : ℚ) * 100) 1,
      neutral_percent := pyRound ((neutral : ℚ) / (total : ℚ) * 100) 1 }

/-- Modelled from the spec: the word-level sentiment lexicon of the
Polarity Scorer (§4.1). The scorer itself is delegated by the source to
the third-party TextBlob library, which is not part of this repository,
so the lexicon is a representative fixed table as the spec describes:
each recognized token carries a polarity contribution in [-1, 1]. -/
def lexicon : List (List Char × ℚ) :=
  [("good".data, 7/10), ("great".data, 8/10), ("happy".data, 8/10),
   ("love".data, 1/2), ("wonderful".data, 1), ("nice".data, 3/5),
   ("bad".data, -7/10), ("terrible".data, -1), ("sad".data, -1/2),
   ("hate".data, -4/5), ("awful".data, -1)]

/-- Modelled from the spec: the negation words of the Polarity Scorer
(§4.1, "not", "never", etc.). -/
def negationTokens : List (List Char) :=
  ["not".data, "never".data, "no".data]

/-- Modelled from the spec: the intensifier words of the Polarity Scorer
(§4.1, "very", "extremely"), each scaling up the following
sentiment-bearing token. -/
def intensifierTokens : List (List Char × ℚ) :=
  [("very".data, 13/10), ("extremely".data, 3/2)]

/-- Python's `str.split()`: split on whitespace runs, dropping empties.
The accumulator holds the current word reversed. -/
def splitWordsAux : List Char → List Char → List (List Char)
  | [], acc => if acc.isEmpty then [] else [acc.reverse]
  | c :: cs, acc =>
    if c.isWhitespace then
      if acc.isEmpty then splitWordsAux cs []
      else acc.reverse :: splitWordsAux cs []
    else splitWordsAux cs (c :: acc)

/-- The lowercased whitespace-separated tokens of a text. -/
def tokensOf (text : String) : List (List Char) :=
  splitWordsAux (lowerChars text) []

/-- Modelled from the spec: the polarity contributions of the
sentiment-bearing tokens (§4.1). The pending modifier `m` starts at 1, is
negated by a negation word, scaled by an intensifier, applied to the next
lexicon token and reset to 1 afterwards and after any other word
(the spec's adjacency requirement). -/
def tokenScores : List (List Char) → ℚ → List ℚ
  | [], _ => []
  | w :: ws, m =>
    if negationTokens.contains w then tokenScores ws (-m)
    else match lexicon.lookup w with
      | some v => m * v :: tokenScores ws 1
      | none =>
        match intensifierTokens.lookup w with
        | some k => tokenScores ws (m * k)
        | none => tokenScores ws 1

/-- Modelled from the spec: `score(text)` of the Polarity Scorer (§4.1),
the lexicon-weighted average over all sentiment-bearing tokens, clamped to
[-1, 1], and exactly 0 when no sentiment-bearing token is found. -/
def polarityScore (text : String) : ℚ :=
  if (tokenScores (tokensOf text) 1).isEmpty then 0
  else max (-1) (min 1 ((tokenScores (tokensOf text) 1).sum /
    ((tokenScores (tokensOf text) 1).length : ℚ)))

/-- The function `SentimentAnalyzer.analyze_sentiment` (`app/sentiment.py` lines 10–35):
score the text, classify the polarity, and return the label together with
the polarity rounded to 4 decimal places. -/
def analyze_sentiment (text : String) : String × ℚ :=
  let polarity := polarityScore text
  (classify polarity, pyRound polarity 4)

/-- The per-day counter dictionary value of `analytics_timeline`
(`{'positive': 0, 'negative': 0, 'neutral': 0}`). -/
structure DayCounts where
  positive : ℕ
  negative : ℕ
  neutral : ℕ
deriving DecidableEq

/-- The statement `daily_sentiment[date_key][msg.sentiment] += 1` from
`templates/routes.py` line 265: bump the counter named by the label, or
fail (Python `KeyError`) when the label is not one of the three keys. -/
def bumpCounts (c : DayCounts) (s : String) : Option DayCounts :=
  if s = "positive" then some { c with positive := c.positive + 1 }
  else if s = "negative" then some { c with negative := c.negative + 1 }
  else if s = "neutral" then some { c with neutral := c.neutral + 1 }
  else none

/-- The calendar date (as a day number) of a UTC instant given in seconds:
`msg.timestamp.strftime('%Y-%m-%d')` distinguishes timestamps exactly by
this floor division. -/
def dateOf (t : ℤ) : ℤ := t / 86400

/-- The grouping loop of `analytics_timeline` (`templates/routes.py` lines
260–265): fold the records into a per-date dictionary of label counts,
failing on the first record whose label is not a dictionary key. -/
def groupByDate : List ChatRecord → (ℤ → DayCounts) → Option (ℤ → DayCounts)
  | [], acc => some acc
  | msg :: rest, acc =>
    match bumpCounts (acc (dateOf msg.timestamp)) msg.sentiment with
    | some c => groupByDate rest
        (fun d => if d = dateOf msg.timestamp then c else acc d)
    | none => none

/-- The response payload of `analytics_timeline`. -/
structure TimelineData where
  dates : List ℤ
  positive : List ℕ
  negative : List ℕ
  neutral : List ℕ
deriving DecidableEq

/-- The route handler `analytics_timeline` of `templates/routes.py` (lines 249–289): filter
the records to the last 7 days, group them by calendar date, and emit, for
the 7 consecutive days ending at the reference instant's day, the per-label
counts with zero defaults. The reference instant `now` stands for
`datetime.utcnow()`; the database query filter `timestamp >= week_ago` is
the list filter. -/
def analytics_timeline (messages : List ChatRecord) (now : ℤ) : Option TimelineData :=
  let week_ago := now - 7 * 86400
  let recent := messages.filter (fun msg => week_ago ≤ msg.timestamp)
  match groupByDate recent (fun _ => ⟨0, 0, 0⟩) with
  | none => none
  | some daily =>
    let dates := (List.range 7).map (fun i : ℕ => dateOf (now - (6 - (i : ℤ)) * 86400))
    some { dates := dates,
           positive := dates.map (fun d => (daily d).positive),
           negative := dates.map (fun d => (daily d).negative),
           neutral := dates.map (fun d => (daily d).neutral) }

theorem containsSub_iff_infix (n h : List Char) :
    containsSub n h = true ↔ n <:+: h := by
  induction h with
  | nil =>
    simp [containsSub, List.isEmpty_iff]
  | cons c t ih =>
    simp only [containsSub, Bool.or_eq_true, List.isPrefixOf_iff_prefix, ih]
    exact (List.infix_cons_iff).symm

theorem anyKeyword_iff (ws : List String) (ml : List Char) :
    anyKeyword ws ml = true ↔ ∃ w ∈ ws, w.data <:+: ml := by
  simp [anyKeyword, List.any_eq_true, containsSub_iff_infix]

theorem le_pyRoundInt (m : ℤ) (q : ℚ) (h : (m : ℚ) ≤ q) : m ≤ pyRoundInt q := by
  unfold pyRoundInt
  have hfl : m ≤ ⌊q⌋ := Int.le_floor.mpr h
  split_ifs with h1 h2
  · exact hfl
  · omega
  · calc m ≤ ⌊q⌋ := hfl
      _ ≤ ⌊q + 1/2⌋ := Int.floor_le_floor (by linarith)
      _ = round q := (round_eq q).symm

theorem pyRoundInt_le (m : ℤ) (q : ℚ) (h : q ≤ (m : ℚ)) : pyRoundInt q ≤ m := by
  unfold pyRoundInt
  split_ifs with h1 h2
  · exact Int.floor_le_floor h |>.trans (le_of_eq (Int.floor_intCast m))
  · -- q = ⌊q⌋ + 1/2 ≤ m forces ⌊q⌋ < m, hence ⌊q⌋ + 1 ≤ m
    have hq : (⌊q⌋ : ℚ) + 1/2 ≤ (m : ℚ) := by
      have : (⌊q⌋ : ℚ) = q - 1/2 := by linarith
      linarith
    have : (⌊q⌋ : ℚ) < (m : ℚ) := by linarith
    have : ⌊q⌋ < m := by exact_mod_cast this
    omega
  · rw [round_eq]
    have : q + 1/2 < (m : ℚ) + 1 := by linarith
    exact Int.le_of_lt_add_one (Int.floor_lt.mpr (by push_cast; linarith))

theorem pyRoundInt_zero : pyRoundInt 0 = 0 := by
  unfold pyRoundInt
  norm_num

theorem pyRound_zero (n : ℕ) : pyRound 0 n = 0 := by
  unfold pyRound
  rw [zero_mul, pyRoundInt_zero]
  norm_num

/-- Claim C1: `classify` maps a score to Positive exactly when score > 0.1, to
Negative exactly when score < -0.1, and to Neutral otherwise (including the
boundary values 0.1, -0.1 and 0); the boundary examples
`classify 0.1 = neutral`, `classify 0.1000001 = positive`,
`classify (-0.1) = neutral`, `classify (-0.1000001) = negative` hold, and
`classify` is a total function (the three cases are exhaustive). -/
theorem classify_spec (s : ℚ) :
    (classify s = "positive" ↔ (0.1 : ℚ) < s) ∧
    (classify s = "negative" ↔ s < (-0.1 : ℚ)) ∧
    (classify s = "neutral" ↔ ((-0.1 : ℚ) ≤ s ∧ s ≤ (0.1 : ℚ))) ∧
    classify (0.1 : ℚ) = "neutral" ∧
    classify (0.1000001 : ℚ) = "positive" ∧
    classify (-0.1 : ℚ) = "neutral" ∧
    classify (-0.1000001 : ℚ) = "negative" := by
  have hpn : ("positive" : String) ≠ "negative" := by decide
  have hpu : ("positive" : String) ≠ "neutral" := by decide
  have hnu : ("negative" : String) ≠ "neutral" := by decide
  refine ⟨?_, ?_, ?_, ?_, ?_, ?_, ?_⟩
  · unfold classify
    split_ifs with h1 h2 <;> simp_all <;> linarith
  · unfold classify
    split_ifs with h1 h2 <;> simp_all <;> linarith
  · unfold classify
    split_ifs with h1 h2 <;> simp_all <;> constructor <;> linarith
  · unfold classify; norm_num
  · unfold classify; norm_num
  · unfold classify; norm_num
  · unfold classify; norm_num

theorem anyKeyword_eq_false_iff (ws : List String) (ml : List Char) :
    anyKeyword ws ml = false ↔ ∀ w ∈ ws, ¬ (w.data <:+: ml) := by
  rw [← Bool.not_eq_true, anyKeyword_iff]
  push_neg
  simp

/-- If no trigger of `keywordTriggers` occurs in the lowercased message,
none of the four rules of `generate_response` fires. -/
theorem noTrigger_anyKeyword (message : String)
    (h : ∀ w ∈ keywordTriggers, ¬ (w.data <:+: lowerChars message)) :
    anyKeyword ["help", "support", "assist"] (lowerChars message) = false ∧
    anyKeyword ["thank", "thanks", "appreciate"] (lowerChars message) = false ∧
    anyKeyword ["bye", "goodbye", "see you"] (lowerChars message) = false ∧
    anyKeyword ["hello", "hi", "hey"] (lowerChars message) = false := by
  refine ⟨?_, ?_, ?_, ?_⟩ <;>
    · rw [anyKeyword_eq_false_iff]
      intro w hw
      exact h w (by revert hw; unfold keywordTriggers; simp; tauto)

/-- A checkable sufficient condition for the trigger-free hypothesis. -/
theorem noTrigger_of_all_not (message : String)
    (h : keywordTriggers.all (fun w => ! containsSub w.data (lowerChars message)) = true) :
    ∀ w ∈ keywordTriggers, ¬ (w.data <:+: lowerChars message) := by
  intro w hw
  rw [← containsSub_iff_infix]
  have := (List.all_eq_true).mp h w hw
  simp at this
  simp [this]

/-- Claim C2: `generate_response` evaluates the four keyword rules against the
lowercased message by plain substring match, in the fixed priority order
help/support/assist, thank/thanks/appreciate, bye/goodbye/"see you",
hello/hi/hey; only the first matching rule fires; the help rule appends a
help-offering sentence to the randomly selected base response (and is
terminal), while each of the other three rules replaces the response with
its fixed phrase. -/
theorem generate_response_keyword_rules (message sentiment : String) (r : ℕ) :
    ((∃ w ∈ (["help", "support", "assist"] : List String),
        w.data <:+: lowerChars message) →
      generate_response message sentiment r =
        (responsesFor sentiment).getD (r % (responsesFor sentiment).length) ""
          ++ " I\x27m here to assist you with any questions or concerns you may have.") ∧
    ((¬ ∃ w ∈ (["help", "support", "assist"] : List String),
        w.data <:+: lowerChars message) →
     (∃ w ∈ (["thank", "thanks", "appreciate"] : List String),
        w.data <:+: lowerChars message) →
      generate_response message sentiment r =
        "You\x27re very welcome! It\x27s my pleasure to help you. 😊") ∧
    ((¬ ∃ w ∈ (["help", "support", "assist"] : List String),
        w.data <:+: lowerChars message) →
     (¬ ∃ w ∈ (["thank", "thanks", "appreciate"] : List String),
        w.data <:+: lowerChars message) →
     (∃ w ∈ (["bye", "goodbye", "see you"] : List String),
        w.data <:+: lowerChars message) →
      generate_response message sentiment r =
        "Goodbye! Feel free to return anytime. Have a great day! 👋") ∧
    ((¬ ∃ w ∈ (["help", "support", "assist"] : List String),
        w.data <:+: lowerChars message) →
     (¬ ∃ w ∈ (["thank", "thanks", "appreciate"] : List String),
        w.data <:+: lowerChars message) →
     (¬ ∃ w ∈ (["bye", "goodbye", "see you"] : List String),
        w.data <:+: lowerChars message) →
     (∃ w ∈ (["hello", "hi", "hey"] : List String),
        w.data <:+: lowerChars message) →
      generate_response message sentiment r =
        "Hello! Nice to meet you! How can I brighten your day? 😊") ∧
    ((∀ w ∈ keywordTriggers, ¬ (w.data <:+: lowerChars message)) →
      generate_response message sentiment r =
        (responsesFor sentiment).getD (r % (responsesFor sentiment).length) "") := by
  refine ⟨?_, ?_, ?_, ?_, ?_⟩
  · intro h
    unfold generate_response
    rw [if_pos ((anyKeyword_iff _ _).mpr h)]
  · intro h1 h2
    unfold generate_response
    rw [if_neg (by rw [anyKeyword_iff]; exact h1),
        if_pos ((anyKeyword_iff _ _).mpr h2)]
  · intro h1 h2 h3
    unfold generate_response
    rw [if_neg (by rw [anyKeyword_iff]; exact h1),
        if_neg (by rw [anyKeyword_iff]; exact h2),
        if_pos ((anyKeyword_iff _ _).mpr h3)]
  · intro h1 h2 h3 h4
    unfold generate_response
    rw [if_neg (by rw [anyKeyword_iff]; exact h1),
        if_neg (by rw [anyKeyword_iff]; exact h2),
        if_neg (by rw [anyKeyword_iff]; exact h3),
        if_pos ((anyKeyword_iff _ _).mpr h4)]
  · intro h
    obtain ⟨k1, k2, k3, k4⟩ := noTrigger_anyKeyword message h
    unfold generate_response
    rw [if_neg (by rw [k1]; simp), if_neg (by rw [k2]; simp),
        if_neg (by rw [k3]; simp), if_neg (by rw [k4]; simp)]

/-- Witness for C2 at concrete inputs: "please help me" triggers the help
rule (appending to the base response), and "thanks a lot" (which does not
contain a help trigger) yields the fixed acknowledgment phrase. -/
theorem generate_response_keyword_rules_witness :
    generate_response "please help me" "positive" 0 =
      "That\x27s wonderful! I\x27m glad you\x27re feeling positive! 😊 I\x27m here to assist you with any questions or concerns you may have." ∧
    generate_response "Thanks a lot" "negative" 2 =
      "You\x27re very welcome! It\x27s my pleasure to help you. 😊" := by
  constructor
  · exact (generate_response_keyword_rules "please help me" "positive" 0).1
      ⟨"help", by decide, by decide⟩
  · exact (generate_response_keyword_rules "Thanks a lot" "negative" 2).2.1
      (by decide) ⟨"thank", by decide, by decide⟩

theorem getD_mem_of_length_pos {l : List String} (r : ℕ) (h : l ≠ []) :
    l.getD (r % l.length) "" ∈ l := by
  have hlen : 0 < l.length := List.length_pos.mpr h
  have hlt : r % l.length < l.length := Nat.mod_lt r hlen
  rw [List.getD_eq_getElem l "" hlt]
  exact List.getElem_mem hlt

/-- Claim C7: For a message containing none of the keyword triggers,
`generate_response` with a given label always returns a member of that
label's candidate set and never a member of the other two candidate sets,
whatever the random draw. -/
theorem generate_response_candidate_sets (message : String) (r : ℕ)
    (h : ∀ w ∈ keywordTriggers, ¬ (w.data <:+: lowerChars message)) :
    (generate_response message "positive" r ∈ positiveResponses ∧
     generate_response message "positive" r ∉ negativeResponses ∧
     generate_response message "positive" r ∉ neutralResponses) ∧
    (generate_response message "negative" r ∈ negativeResponses ∧
     generate_response message "negative" r ∉ positiveResponses ∧
     generate_response message "negative" r ∉ neutralResponses) ∧
    (generate_response message "neutral" r ∈ neutralResponses ∧
     generate_response message "neutral" r ∉ positiveResponses ∧
     generate_response message "neutral" r ∉ negativeResponses) := by
  obtain ⟨k1, k2, k3, k4⟩ := noTrigger_anyKeyword message h
  have base : ∀ s : String, generate_response message s r =
      (responsesFor s).getD (r % (responsesFor s).length) "" := by
    intro s
    unfold generate_response
    rw [if_neg (by rw [k1]; simp), if_neg (by rw [k2]; simp),
        if_neg (by rw [k3]; simp), if_neg (by rw [k4]; simp)]
  have hpos : responsesFor "positive" = positiveResponses := by decide
  have hneg : responsesFor "negative" = negativeResponses := by decide
  have hneu : responsesFor "neutral" = neutralResponses := by decide
  have disj1 : ∀ x ∈ positiveResponses, x ∉ negativeResponses ∧ x ∉ neutralResponses := by
    decide
  have disj2 : ∀ x ∈ negativeResponses, x ∉ positiveResponses ∧ x ∉ neutralResponses := by
    decide
  have disj3 : ∀ x ∈ neutralResponses, x ∉ positiveResponses ∧ x ∉ negativeResponses := by
    decide
  refine ⟨?_, ?_, ?_⟩
  · rw [base "positive", hpos]
    have hm : positiveResponses.getD (r % positiveResponses.length) "" ∈ positiveResponses :=
      getD_mem_of_length_pos r (by decide)
    exact ⟨hm, (disj1 _ hm).1, (disj1 _ hm).2⟩
  · rw [base "negative", hneg]
    have hm : negativeResponses.getD (r % negativeResponses.length) "" ∈ negativeResponses :=
      getD_mem_of_length_pos r (by decide)
    exact ⟨hm, (disj2 _ hm).1, (disj2 _ hm).2⟩
  · rw [base "neutral", hneu]
    have hm : neutralResponses.getD (r % neutralResponses.length) "" ∈ neutralResponses :=
      getD_mem_of_length_pos r (by decide)
    exact ⟨hm, (disj3 _ hm).1, (disj3 _ hm).2⟩

/-- Witness for C7 at the keyword-free message "ok" and random index 3. -/
theorem generate_response_candidate_sets_witness :
    generate_response "ok" "positive" 3 ∈ positiveResponses ∧
    generate_response "ok" "positive" 3 ∉ negativeResponses ∧
    generate_response "ok" "positive" 3 ∉ neutralResponses :=
  (generate_response_candidate_sets "ok" 3
    (noTrigger_of_all_not "ok" (by decide))).1

/-- Claim C10: When `generate_response` is given a label outside
{positive, negative, neutral}, it does not fail: it silently selects the
base response from the neutral candidate set, so for every keyword-free
message and every random draw the result is one of the 5 neutral
templates. -/
theorem generate_response_unknown_label (message sentiment : String) (r : ℕ)
    (hs : sentiment ∉ (["positive", "negative", "neutral"] : List String))
    (h : ∀ w ∈ keywordTriggers, ¬ (w.data <:+: lowerChars message)) :
    generate_response message sentiment r ∈ neutralResponses := by
  obtain ⟨k1, k2, k3, k4⟩ := noTrigger_anyKeyword message h
  have h1 : ¬ (sentiment = "positive") := fun e => hs (by simp [e])
  have h2 : ¬ (sentiment = "negative") := fun e => hs (by simp [e])
  have h3 : ¬ (sentiment = "neutral") := fun e => hs (by simp [e])
  unfold generate_response
  rw [if_neg (by rw [k1]; simp), if_neg (by rw [k2]; simp),
      if_neg (by rw [k3]; simp), if_neg (by rw [k4]; simp)]
  have : responsesFor sentiment = neutralResponses := by
    unfold responsesFor
    rw [if_neg h1, if_neg h2, if_neg h3]
  rw [this]
  exact getD_mem_of_length_pos r (by decide)

/-- Witness for C10: the unknown label "bogus" on the keyword-free message
"ok" yields a neutral template. -/
theorem generate_response_unknown_label_witness :
    generate_response "ok" "bogus" 5 ∈ neutralResponses :=
  generate_response_unknown_label "ok" "bogus" 5 (by decide)
    (noTrigger_of_all_not "ok" (by decide))

/-- Claim C4: `calculate_statistics` returns `total` equal to the number of
records, per-label counts by enumeration, and each percentage equal to
`round(count/total*100, 1)`; on the empty list it returns the all-zero
summary (no division by zero is performed); for 3 positive and 1 negative
records the percentages are 75.0, 25.0 and 0.0. -/
theorem calculate_statistics_spec (l : List ChatRecord) :
    (calculate_statistics l).total = l.length ∧
    (calculate_statistics l).positive = l.countP (fun m => m.sentiment == "positive") ∧
    (calculate_statistics l).negative = l.countP (fun m => m.sentiment == "negative") ∧
    (calculate_statistics l).neutral = l.countP (fun m => m.sentiment == "neutral") ∧
    (l ≠ [] →
      (calculate_statistics l).positive_percent =
        pyRound ((l.countP (fun m => m.sentiment == "positive") : ℚ) / (l.length : ℚ) * 100) 1 ∧
      (calculate_statistics l).negative_percent =
        pyRound ((l.countP (fun m => m.sentiment == "negative") : ℚ) / (l.length : ℚ) * 100) 1 ∧
      (calculate_statistics l).neutral_percent =
        pyRound ((l.countP (fun m => m.sentiment == "neutral") : ℚ) / (l.length : ℚ) * 100) 1) ∧
    calculate_statistics [] =
      { total := 0, positive := 0, negative := 0, neutral := 0,
        positive_percent := 0, negative_percent := 0, neutral_percent := 0 } ∧
    ((calculate_statistics
        [⟨"positive", 0⟩, ⟨"positive", 1⟩, ⟨"positive", 2⟩, ⟨"negative", 3⟩]).positive_percent = 75 ∧
     (calculate_statistics
        [⟨"positive", 0⟩, ⟨"positive", 1⟩, ⟨"positive", 2⟩, ⟨"negative", 3⟩]).negative_percent = 25 ∧
     (calculate_statistics
        [⟨"positive", 0⟩, ⟨"positive", 1⟩, ⟨"positive", 2⟩, ⟨"negative", 3⟩]).neutral_percent = 0) := by
  refine ⟨?_, ?_, ?_, ?_, ?_, ?_, ?_, ?_, ?_⟩
  · unfold calculate_statistics
    split_ifs with h
    · simp [List.isEmpty_iff.mp h]
    · rfl
  · unfold calculate_statistics
    split_ifs with h
    · simp [List.isEmpty_iff.mp h]
    · rfl
  · unfold calculate_statistics
    split_ifs with h
    · simp [List.isEmpty_iff.mp h]
    · rfl
  · unfold calculate_statistics
    split_ifs with h
    · simp [List.isEmpty_iff.mp h]
    · rfl
  · intro hne
    unfold calculate_statistics
    rw [if_neg (by simpa [List.isEmpty_iff] using hne)]
    exact ⟨rfl, rfl, rfl⟩
  · rfl
  · show pyRound ((3 : ℚ) / 4 * 100) 1 = 75
    unfold pyRound pyRoundInt
    norm_num [round_eq]
  · show pyRound ((1 : ℚ) / 4 * 100) 1 = 25
    unfold pyRound pyRoundInt
    norm_num [round_eq]
  · show pyRound ((0 : ℚ) / 4 * 100) 1 = 0
    unfold pyRound pyRoundInt
    norm_num [round_eq]

/-- Witness for C4: the nonempty-list percentage equations evaluated on a
concrete two-record list. -/
theorem calculate_statistics_spec_witness :
    ([⟨"positive", 0⟩, ⟨"neutral", 1⟩] : List ChatRecord) ≠ [] ∧
    (calculate_statistics [⟨"positive", 0⟩, ⟨"neutral", 1⟩]).positive_percent =
      pyRound ((([⟨"positive", 0⟩, ⟨"neutral", 1⟩] : List ChatRecord).countP
        (fun m => m.sentiment == "positive") : ℚ) / 2 * 100) 1 :=
  ⟨by decide, ((calculate_statistics_spec [⟨"positive", 0⟩, ⟨"neutral", 1⟩]).2.2.2.2.1
      (by decide)).1⟩

theorem countP_labels_split (xs : List ChatRecord) :
    xs.countP (fun m => m.sentiment == "positive") +
      xs.countP (fun m => m.sentiment == "negative") +
      xs.countP (fun m => m.sentiment == "neutral") =
    xs.countP (fun m =>
      m.sentiment == "positive" || m.sentiment == "negative" || m.sentiment == "neutral") := by
  induction xs with
  | nil => simp
  | cons a t ih =>
    have hind : ((if (a.sentiment == "positive") = true then 1 else 0) +
        (if (a.sentiment == "negative") = true then 1 else 0) +
        (if (a.sentiment == "neutral") = true then 1 else 0) : ℕ) =
        if (a.sentiment == "positive" || a.sentiment == "negative" ||
            a.sentiment == "neutral") = true then 1 else 0 := by
      by_cases hp : a.sentiment = "positive" <;>
        by_cases hn : a.sentiment = "negative" <;>
        by_cases hu : a.sentiment = "neutral" <;>
        simp_all
    simp only [List.countP_cons]
    omega

/-- Claim C9: Implicit invariant of `calculate_statistics`: `total` is the
length of the input list and `positive + negative + neutral ≤ total`, with
equality exactly when every record carries one of the three recognized
labels; records with any other label are counted in `total` (and hence in
the percentage denominators) but in none of the three per-label counts. -/
theorem calculate_statistics_invariant (l : List ChatRecord) :
    (calculate_statistics l).total = l.length ∧
    (calculate_statistics l).positive + (calculate_statistics l).negative +
      (calculate_statistics l).neutral ≤ (calculate_statistics l).total ∧
    ((calculate_statistics l).positive + (calculate_statistics l).negative +
        (calculate_statistics l).neutral = (calculate_statistics l).total ↔
      ∀ m ∈ l, m.sentiment ∈ (["positive", "negative", "neutral"] : List String)) := by
  have hfields :
      (calculate_statistics l).total = l.length ∧
      (calculate_statistics l).positive = l.countP (fun m => m.sentiment == "positive") ∧
      (calculate_statistics l).negative = l.countP (fun m => m.sentiment == "negative") ∧
      (calculate_statistics l).neutral = l.countP (fun m => m.sentiment == "neutral") := by
    unfold calculate_statistics
    split_ifs with h
    · simp [List.isEmpty_iff.mp h]
    · exact ⟨rfl, rfl, rfl, rfl⟩
  obtain ⟨ht, hp, hn, hu⟩ := hfields
  rw [ht, hp, hn, hu, countP_labels_split]
  refine ⟨rfl, List.countP_le_length _, ?_⟩
  rw [List.countP_eq_length]
  constructor
  · intro h m hm
    have := h m hm
    simp only [Bool.or_eq_true, beq_iff_eq] at this
    simp only [List.mem_cons, List.not_mem_nil, or_false]
    tauto
  · intro h m hm
    have := h m hm
    simp only [List.mem_cons, List.not_mem_nil, or_false] at this
    simp only [Bool.or_eq_true, beq_iff_eq]
    tauto

theorem tokenScores_eq_nil_of_no_lexicon (ws : List (List Char))
    (h : ∀ w ∈ ws, lexicon.lookup w = none) :
    ∀ m : ℚ, tokenScores ws m = [] := by
  induction ws with
  | nil => intro m; rfl
  | cons w t ih =>
    intro m
    have hw : lexicon.lookup w = none := h w (List.mem_cons_self w t)
    have ht : ∀ x ∈ t, lexicon.lookup x = none := fun x hx => h x (List.mem_cons_of_mem w hx)
    unfold tokenScores
    split_ifs with hneg
    · exact ih ht (-m)
    · rw [hw]
      cases intensifierTokens.lookup w with
      | none => exact ih ht 1
      | some k => exact ih ht (m * k)

theorem splitWordsAux_all_whitespace (l : List Char)
    (h : ∀ c ∈ l, c.isWhitespace = true) : splitWordsAux l [] = [] := by
  induction l with
  | nil => rfl
  | cons c cs ih =>
    unfold splitWordsAux
    rw [if_pos (h c (List.mem_cons_self c cs))]
    simpa using ih (fun x hx => h x (List.mem_cons_of_mem c hx))

theorem isWhitespace_toLower (c : Char) (h : c.isWhitespace = true) :
    c.toLower.isWhitespace = true := by
  have : c = ' ' ∨ c = '\t' ∨ c = '\r' ∨ c = '\n' := by
    revert h
    unfold Char.isWhitespace
    simp only [Bool.or_eq_true, decide_eq_true_eq]
    tauto
  rcases this with rfl | rfl | rfl | rfl <;> decide

/-- Claim C6: The score component of `analyze_sentiment` always lies in
[-1, 1] and is an integer multiple of 1/10000 (i.e. rounded to 4 decimal
places); for a text none of whose tokens is in the sentiment lexicon —
in particular for empty or whitespace-only text — the score is exactly 0
and the derived label is Neutral, with no error path. -/
theorem analyze_sentiment_score_spec (text : String) :
    (-1 : ℚ) ≤ (analyze_sentiment text).2 ∧
    (analyze_sentiment text).2 ≤ 1 ∧
    (∃ n : ℤ, (analyze_sentiment text).2 = (n : ℚ) / 10000) ∧
    ((∀ w ∈ tokensOf text, lexicon.lookup w = none) →
      (analyze_sentiment text).2 = 0 ∧ (analyze_sentiment text).1 = "neutral") ∧
    ((∀ c ∈ text.data, c.isWhitespace = true) →
      (analyze_sentiment text).2 = 0 ∧ (analyze_sentiment text).1 = "neutral") := by
  have hrange : (-1 : ℚ) ≤ polarityScore text ∧ polarityScore text ≤ 1 := by
    unfold polarityScore
    split_ifs with h
    · norm_num
    · exact ⟨le_max_left _ _, max_le (by norm_num) (min_le_left _ _)⟩
  have hscore : (analyze_sentiment text).2 = pyRound (polarityScore text) 4 := rfl
  have hlabel : (analyze_sentiment text).1 = classify (polarityScore text) := rfl
  have hzero : (∀ w ∈ tokensOf text, lexicon.lookup w = none) →
      (analyze_sentiment text).2 = 0 ∧ (analyze_sentiment text).1 = "neutral" := by
    intro h
    have hnil : tokenScores (tokensOf text) 1 = [] :=
      tokenScores_eq_nil_of_no_lexicon _ h 1
    have hp : polarityScore text = 0 := by
      unfold polarityScore
      rw [hnil]
      rfl
    constructor
    · rw [hscore, hp]
      exact pyRound_zero 4
    · rw [hlabel, hp]
      unfold classify
      norm_num
  refine ⟨?_, ?_, ?_, hzero, ?_⟩
  · rw [hscore]
    unfold pyRound
    have h1 : ((-10000 : ℤ) : ℚ) ≤ polarityScore text * 10 ^ 4 := by
      push_cast
      linarith [hrange.1]
    have hN1 := le_pyRoundInt (-10000) _ h1
    rw [le_div_iff (by norm_num : (0 : ℚ) < 10 ^ 4)]
    calc (-1 : ℚ) * 10 ^ 4 = ((-10000 : ℤ) : ℚ) := by norm_num
      _ ≤ _ := by exact_mod_cast hN1
  · rw [hscore]
    unfold pyRound
    have h2 : polarityScore text * 10 ^ 4 ≤ ((10000 : ℤ) : ℚ) := by
      push_cast
      linarith [hrange.2]
    have hN2 := pyRoundInt_le 10000 _ h2
    rw [div_le_iff (by norm_num : (0 : ℚ) < 10 ^ 4)]
    calc ((pyRoundInt (polarityScore text * 10 ^ 4) : ℤ) : ℚ)
        ≤ ((10000 : ℤ) : ℚ) := by exact_mod_cast hN2
      _ = 1 * 10 ^ 4 := by norm_num
  · refine ⟨pyRoundInt (polarityScore text * 10 ^ 4), ?_⟩
    rw [hscore]
    unfold pyRound
    norm_num
  · intro hws
    apply hzero
    intro w hw
    have hemp : tokensOf text = [] := by
      unfold tokensOf
      apply splitWordsAux_all_whitespace
      intro c hc
      unfold lowerChars at hc
      obtain ⟨c0, hc0, rfl⟩ := List.mem_map.mp hc
      exact isWhitespace_toLower c0 (hws c0 hc0)
    rw [hemp] at hw
    exact absurd hw (List.not_mem_nil w)

/-- Witness for C6: the whitespace-only text "   " scores exactly 0 and is
labelled Neutral. -/
theorem analyze_sentiment_score_spec_witness :
    (analyze_sentiment "   ").2 = 0 ∧ (analyze_sentiment "   ").1 = "neutral" :=
  (analyze_sentiment_score_spec "   ").2.2.2.2 (by decide)

/-- Claim C8: `analyze_sentiment`'s score and `classify` are deterministic:
two calls on equal inputs yield equal results. Both are pure functions of
their input in the embedding, exactly as in the source, where they read no
mutable state and the only randomness of the module lives in
`generate_response`. -/
theorem score_classify_deterministic (t₁ t₂ : String) (s₁ s₂ : ℚ)
    (ht : t₁ = t₂) (hs : s₁ = s₂) :
    analyze_sentiment t₁ = analyze_sentiment t₂ ∧ classify s₁ = classify s₂ :=
  ⟨ht ▸ rfl, hs ▸ rfl⟩

/-- Witness for C8 at concrete inputs. -/
theorem score_classify_deterministic_witness :
    analyze_sentiment "good" = analyze_sentiment "good" ∧
    classify (1/2) = classify (1/2) :=
  score_classify_deterministic "good" "good" (1/2) (1/2) rfl rfl

theorem bumpCounts_of_valid (c : DayCounts) (s : String)
    (h : s ∈ (["positive", "negative", "neutral"] : List String)) :
    ∃ c', bumpCounts c s = some c' ∧
      c'.positive + c'.negative + c'.neutral =
        c.positive + c.negative + c.neutral + 1 := by
  simp only [List.mem_cons, List.not_mem_nil, or_false] at h
  rcases h with h | h | h
  · exact ⟨_, by rw [bumpCounts, if_pos h], by simp; omega⟩
  · have hne : ¬ (s = "positive") := by rw [h]; decide
    exact ⟨_, by rw [bumpCounts, if_neg hne, if_pos h], by simp; omega⟩
  · have hne1 : ¬ (s = "positive") := by rw [h]; decide
    have hne2 : ¬ (s = "negative") := by rw [h]; decide
    exact ⟨_, by rw [bumpCounts, if_neg hne1, if_neg hne2, if_pos h], by simp; omega⟩

theorem bumpCounts_of_invalid (c : DayCounts) (s : String)
    (h : s ∉ (["positive", "negative", "neutral"] : List String)) :
    bumpCounts c s = none := by
  have h1 : ¬ (s = "positive") := fun e => h (by simp [e])
  have h2 : ¬ (s = "negative") := fun e => h (by simp [e])
  have h3 : ¬ (s = "neutral") := fun e => h (by simp [e])
  rw [bumpCounts, if_neg h1, if_neg h2, if_neg h3]

theorem groupByDate_some_of_valid (l : List ChatRecord) :
    ∀ acc : ℤ → DayCounts,
    (∀ m ∈ l, m.sentiment ∈ (["positive", "negative", "neutral"] : List String)) →
    ∃ f, groupByDate l acc = some f ∧ ∀ d : ℤ,
      (f d).positive + (f d).negative + (f d).neutral =
        (acc d).positive + (acc d).negative + (acc d).neutral +
          l.countP (fun m => dateOf m.timestamp == d) := by
  induction l with
  | nil =>
    intro acc _
    exact ⟨acc, rfl, fun d => by simp⟩
  | cons msg rest ih =>
    intro acc hval
    obtain ⟨c, hc, hcsum⟩ := bumpCounts_of_valid (acc (dateOf msg.timestamp)) msg.sentiment
      (hval msg (List.mem_cons_self msg rest))
    obtain ⟨f, hf, hfsum⟩ := ih
      (fun d => if d = dateOf msg.timestamp then c else acc d)
      (fun m hm => hval m (List.mem_cons_of_mem msg hm))
    refine ⟨f, ?_, ?_⟩
    · rw [groupByDate, hc]
      exact hf
    · intro d
      rw [hfsum d, List.countP_cons]
      by_cases hd : d = dateOf msg.timestamp
      · subst hd
        rw [if_pos rfl, beq_self_eq_true]
        simp only [if_true]
        omega
      · have hbeq : (dateOf msg.timestamp == d) = false := by
          rw [beq_eq_false_iff_ne]
          exact fun e => hd e.symm
        rw [if_neg hd, hbeq]
        simp only [Bool.false_eq_true, if_false]
        omega

theorem groupByDate_none_of_invalid (l : List ChatRecord) :
    ∀ acc : ℤ → DayCounts,
    (∃ m ∈ l, m.sentiment ∉ (["positive", "negative", "neutral"] : List String)) →
    groupByDate l acc = none := by
  induction l with
  | nil =>
    intro acc h
    obtain ⟨m, hm, _⟩ := h
    exact absurd hm (List.not_mem_nil m)
  | cons msg rest ih =>
    intro acc h
    rw [groupByDate]
    cases hb : bumpCounts (acc (dateOf msg.timestamp)) msg.sentiment with
    | none => rfl
    | some c =>
      obtain ⟨m, hm, hminv⟩ := h
      rcases List.mem_cons.mp hm with rfl | hmem
      · rw [bumpCounts_of_invalid _ _ hminv] at hb
        exact absurd hb (by simp)
      · exact ih _ ⟨m, hmem, hminv⟩

theorem dateOf_sub_mul (t k : ℤ) : dateOf (t - k * 86400) = dateOf t - k := by
  unfold dateOf
  have h : t - k * 86400 = t + (-k) * 86400 := by ring
  rw [h, Int.add_mul_ediv_right t (-k) (by norm_num : (86400 : ℤ) ≠ 0)]
  ring

theorem timeline_dates_getD (now : ℤ) (i : ℕ) (hi : i < 7) :
    ((List.range 7).map (fun j : ℕ => dateOf (now - (6 - (j : ℤ)) * 86400))).getD i 0 =
      dateOf now - 6 + i := by
  have hlen : i < ((List.range 7).map
      (fun j : ℕ => dateOf (now - (6 - (j : ℤ)) * 86400))).length := by
    simpa using hi
  rw [List.getD_eq_getElem _ _ hlen]
  simp only [List.getElem_map, List.getElem_range]
  rw [dateOf_sub_mul]
  ring

/-- Claim C5: For every record list (whose labels are the closed enum that
`classify` produces) and reference instant, `analytics_timeline` returns
`dates`, `positive`, `negative` and `neutral` sequences of length exactly
7; the dates are the 7 consecutive calendar days ending at the reference
day, in ascending (oldest-first) order; and at each index the three
per-label counts sum to the number of input records (with timestamp ≥
reference − 7 days) whose calendar date equals `dates[i]` — in particular
a day with no matching records has all-zero counts. -/
theorem analytics_timeline_spec (msgs : List ChatRecord) (now : ℤ)
    (hvalid : ∀ m ∈ msgs,
      m.sentiment ∈ (["positive", "negative", "neutral"] : List String)) :
    ∃ td, analytics_timeline msgs now = some td ∧
      td.dates.length = 7 ∧ td.positive.length = 7 ∧
      td.negative.length = 7 ∧ td.neutral.length = 7 ∧
      (∀ i : ℕ, i < 7 → td.dates.getD i 0 = dateOf now - 6 + i) ∧
      (∀ i : ℕ, i < 7 →
        td.positive.getD i 0 + td.negative.getD i 0 + td.neutral.getD i 0 =
          (msgs.filter (fun m => now - 7 * 86400 ≤ m.timestamp)).countP
            (fun m => dateOf m.timestamp == td.dates.getD i 0)) ∧
      (∀ i : ℕ, i < 7 →
        (msgs.filter (fun m => now - 7 * 86400 ≤ m.timestamp)).countP
            (fun m => dateOf m.timestamp == td.dates.getD i 0) = 0 →
          td.positive.getD i 0 = 0 ∧ td.negative.getD i 0 = 0 ∧
          td.neutral.getD i 0 = 0) := by
  obtain ⟨f, hf, hsum⟩ := groupByDate_some_of_valid
    (msgs.filter (fun m => now - 7 * 86400 ≤ m.timestamp))
    (fun _ => ⟨0, 0, 0⟩)
    (fun m hm => hvalid m (List.mem_of_mem_filter hm))
  refine ⟨{ dates := (List.range 7).map (fun j : ℕ => dateOf (now - (6 - (j : ℤ)) * 86400)),
            positive := ((List.range 7).map
              (fun j : ℕ => dateOf (now - (6 - (j : ℤ)) * 86400))).map
              (fun d => (f d).positive),
            negative := ((List.range 7).map
              (fun j : ℕ => dateOf (now - (6 - (j : ℤ)) * 86400))).map
              (fun d => (f d).negative),
            neutral := ((List.range 7).map
              (fun j : ℕ => dateOf (now - (6 - (j : ℤ)) * 86400))).map
              (fun d => (f d).neutral) }, ?_, ?_, ?_, ?_, ?_, ?_, ?_, ?_⟩
  · simp only [analytics_timeline]
    rw [hf]
  · simp
  · simp
  · simp
  · simp
  · intro i hi
    exact timeline_dates_getD now i hi
  · intro i hi
    have hlen : i < ((List.range 7).map
        (fun j : ℕ => dateOf (now - (6 - (j : ℤ)) * 86400))).length := by
      simpa using hi
    have hmap : ∀ g : ℤ → ℕ,
        (((List.range 7).map (fun j : ℕ => dateOf (now - (6 - (j : ℤ)) * 86400))).map
          g).getD i 0 =
        g (((List.range 7).map
          (fun j : ℕ => dateOf (now - (6 - (j : ℤ)) * 86400))).getD i 0) := by
      intro g
      rw [List.getD_eq_getElem _ _ (by simpa using hi), List.getElem_map,
        List.getD_eq_getElem _ _ hlen]
    rw [hmap, hmap, hmap]
    have := hsum (((List.range 7).map
      (fun j : ℕ => dateOf (now - (6 - (j : ℤ)) * 86400))).getD i 0)
    simpa using this
  · intro i hi hcnt
    have hlen : i < ((List.range 7).map
        (fun j : ℕ => dateOf (now - (6 - (j : ℤ)) * 86400))).length := by
      simpa using hi
    have hmap : ∀ g : ℤ → ℕ,
        (((List.range 7).map (fun j : ℕ => dateOf (now - (6 - (j : ℤ)) * 86400))).map
          g).getD i 0 =
        g (((List.range 7).map
          (fun j : ℕ => dateOf (now - (6 - (j : ℤ)) * 86400))).getD i 0) := by
      intro g
      rw [List.getD_eq_getElem _ _ (by simpa using hi), List.getElem_map,
        List.getD_eq_getElem _ _ hlen]
    rw [hmap, hmap, hmap]
    have hs := hsum (((List.range 7).map
      (fun j : ℕ => dateOf (now - (6 - (j : ℤ)) * 86400))).getD i 0)
    rw [hcnt] at hs
    simp only [Nat.add_zero, Nat.zero_add] at hs
    omega

/-- Witness for C5: one positive record inside the window, reference
instant 7 days plus 5 seconds after the epoch. -/
theorem analytics_timeline_spec_witness :
    ∃ td, analytics_timeline [⟨"positive", 100⟩] (7 * 86400 + 5) = some td ∧
      td.dates.length = 7 ∧ td.positive.length = 7 ∧
      td.negative.length = 7 ∧ td.neutral.length = 7 ∧
      (∀ i : ℕ, i < 7 → td.dates.getD i 0 = dateOf (7 * 86400 + 5) - 6 + i) ∧
      (∀ i : ℕ, i < 7 →
        td.positive.getD i 0 + td.negative.getD i 0 + td.neutral.getD i 0 =
          (([⟨"positive", 100⟩] : List ChatRecord).filter
            (fun m => 7 * 86400 + 5 - 7 * 86400 ≤ m.timestamp)).countP
            (fun m => dateOf m.timestamp == td.dates.getD i 0)) ∧
      (∀ i : ℕ, i < 7 →
        (([⟨"positive", 100⟩] : List ChatRecord).filter
            (fun m => 7 * 86400 + 5 - 7 * 86400 ≤ m.timestamp)).countP
            (fun m => dateOf m.timestamp == td.dates.getD i 0) = 0 →
          td.positive.getD i 0 = 0 ∧ td.negative.getD i 0 = 0 ∧
          td.neutral.getD i 0 = 0) :=
  analytics_timeline_spec [⟨"positive", 100⟩] (7 * 86400 + 5) (by decide)

/-- Counterexample to **C3** as stated: a label outside
{positive, negative, neutral} does NOT fail fast in `generate_response` or
in `calculate_statistics`. At the concrete inputs below,
`generate_response` returns normally (the first neutral template, since
`responses.get` falls back to the neutral list) and `calculate_statistics`
returns normally (counting the record in `total` and in no per-label
count); neither raises an invalid-argument error. -/
theorem unknown_label_no_failfast_counterexample :
    generate_response "ok" "bogus" 0 = "I understand. How can I assist you today?" ∧
    (calculate_statistics [⟨"bogus", 0⟩]).total = 1 ∧
    (calculate_statistics [⟨"bogus", 0⟩]).positive = 0 ∧
    (calculate_statistics [⟨"bogus", 0⟩]).negative = 0 ∧
    (calculate_statistics [⟨"bogus", 0⟩]).neutral = 0 :=
  ⟨by decide, by decide, by decide, by decide, by decide⟩

/-- Claim C3, amended: A label outside {positive, negative, neutral} does
not fail fast in `generate_response` (which behaves exactly as for the
neutral label, via the dictionary fallback) nor in
`calculate_statistics` (which returns normally, with `total` still the
number of records); only `analytics_timeline` fails on such a label — its
grouping loop raises a key-lookup error (modelled as `none`) whenever a
record within the 7-day window carries an unrecognized label. -/
theorem unknown_label_behavior (message lbl : String) (r : ℕ)
    (hl : lbl ∉ (["positive", "negative", "neutral"] : List String)) :
    generate_response message lbl r = generate_response message "neutral" r ∧
    (∀ msgs : List ChatRecord, (calculate_statistics msgs).total = msgs.length) ∧
    (∀ (msgs : List ChatRecord) (now : ℤ),
      (∃ m ∈ msgs, now - 7 * 86400 ≤ m.timestamp ∧ m.sentiment = lbl) →
      analytics_timeline msgs now = none) := by
  have h1 : ¬ (lbl = "positive") := fun e => hl (by simp [e])
  have h2 : ¬ (lbl = "negative") := fun e => hl (by simp [e])
  have h3 : ¬ (lbl = "neutral") := fun e => hl (by simp [e])
  refine ⟨?_, ?_, ?_⟩
  · have hr : responsesFor lbl = responsesFor "neutral" := by
      unfold responsesFor
      rw [if_neg h1, if_neg h2, if_neg h3]
      decide
    simp only [generate_response]
    rw [hr]
  · intro msgs
    unfold calculate_statistics
    split_ifs with h
    · simp [List.isEmpty_iff.mp h]
    · rfl
  · intro msgs now hm
    obtain ⟨m, hmem, hts, hlbl⟩ := hm
    simp only [analytics_timeline]
    rw [groupByDate_none_of_invalid]
    refine ⟨m, ?_, ?_⟩
    · rw [List.mem_filter]
      exact ⟨hmem, decide_eq_true hts⟩
    · rw [hlbl]
      exact hl

/-- Witness for the amended C3 at concrete inputs: with the unknown label
"bogus", `generate_response` behaves as for "neutral", and a timeline over
a record labelled "bogus" inside the window fails with a key-lookup error. -/
theorem unknown_label_behavior_witness :
    generate_response "ok" "bogus" 1 = generate_response "ok" "neutral" 1 ∧
    analytics_timeline [⟨"bogus", 0⟩] 5 = none :=
  ⟨(unknown_label_behavior "ok" "bogus" 1 (by decide)).1,
   (unknown_label_behavior "ok" "bogus" 1 (by decide)).2.2 [⟨"bogus", 0⟩] 5
     ⟨⟨"bogus", 0⟩, by decide, by decide, rfl⟩⟩
